import Mathlib

set_option maxRecDepth 10000

/-!
Verification of `src/news_automator.py` (daily-news-bot).

The Python program is embedded shallowly: Python strings are modelled as
`List Char` inside the truncation core (`clean_text`) and as Lean `String`
elsewhere; Python dictionaries with a fixed field set become structures with
`Option String` fields (a `none` models an absent or null JSON field, matching
`dict.get` with a default); the network layer is modelled as an oracle
argument, and the already-parsed HTTP response as an `Except` value.
-/

/-- Python `text.split()` from line 69 of `news_automator.py`: split on runs of
whitespace, discarding empty pieces. -/
def pySplit (s : List Char) : List (List Char) :=
  (s.splitOnP (fun c => c.isWhitespace)).filter (fun w => !w.isEmpty)

/-- Python `' '.join(text.split())` from line 69: the whitespace-collapsed
form of the input. -/
def pyCollapse (s : List Char) : List Char :=
  List.intercalate [' '] (pySplit s)

/-- The marker `'...'` appended on truncation (line 70). -/
def ellipsisMarker : List Char := ['.', '.', '.']

/-- Python `t.rsplit(' ', 1)[0]` from line 70: everything before the last
space, or the whole string when it contains no space. -/
def pyRsplitLast (t : List Char) : List Char :=
  if ' ' ∈ t then ((t.reverse.dropWhile (fun c => c != ' ')).tail).reverse else t

/-- The local variable `text = ' '.join(text.split())[:max_len]` of line 69:
the collapsed input sliced to `maxLen` characters. -/
def truncatedSlice (text : List Char) (maxLen : Nat) : List Char :=
  (pyCollapse text).take maxLen

/-- `NewsSummarizer.clean_text` (lines 65-70 of `news_automator.py`). -/
def clean_text (text : List Char) (maxLen : Nat) : List Char :=
  if text = [] then "No details available".data
  else
    if (truncatedSlice text maxLen).length < maxLen then truncatedSlice text maxLen
    else pyRsplitLast (truncatedSlice text maxLen) ++ ellipsisMarker

/-- `clean_text` lifted back to Lean `String`s, for use in summaries. -/
def cleanTextS (text : String) (maxLen : Nat) : String :=
  String.mk (clean_text text.data maxLen)

/-- A raw article as delivered by the news API (spec section 3, `RawArticle`).
Each field is `Option`al: `none` models a JSON field that is absent, matching
Python's `dict.get` defaults in lines 56-57, 74-78 and 190. -/
structure RawArticle where
  title : Option String
  description : Option String
  sourceName : Option String
  url : Option String
deriving DecidableEq

/-- The fixed-shape summary produced by `NewsSummarizer.create_summary`
(spec section 3, `ArticleSummary`). -/
structure ArticleSummary where
  title : String
  summary : String
  source : String
  url : String
deriving DecidableEq

/-- `NewsSummarizer.create_summary` (lines 72-79). -/
def create_summary (a : RawArticle) : ArticleSummary :=
  { title := (a.title.getD "No Title").take 100
    summary := cleanTextS (a.description.getD "") 150
    source := a.sourceName.getD "Unknown"
    url := a.url.getD "" }

/-- The parsed JSON body of a news-API response: a `status` field (absent
fields modelled as `none`) and an `articles` array (line 55-56). -/
structure ApiResponse where
  status : Option String
  articles : List RawArticle
deriving DecidableEq

/-- The title filter of lines 56-57: `a.get('title') and a['title'] != '[Removed]'`.
A missing/null title and an empty title are both falsy in Python. -/
def goodTitle (a : RawArticle) : Bool :=
  match a.title with
  | some t => decide (t ≠ "" ∧ t ≠ "[Removed]")
  | none => false

/-- `NewsFetcher.search_news` (lines 48-62). The transport/parse step is
modelled as an `Except` input: `Except.error` stands for any exception raised
by the HTTP request or the JSON parse, which line 60 catches; the function is
total, so no failure ever propagates to the caller. -/
def search_news (resp : Except String ApiResponse) : List RawArticle :=
  match resp with
  | Except.error _ => []
  | Except.ok data =>
    if data.status = some "ok" then
      (data.articles.filter goodTitle).take 6
    else []

/-- Python `art.get('url', '')` as used by the dedup loop (line 190). -/
def pyUrl (a : RawArticle) : String := a.url.getD ""

/-- The dedup loop of `fetch_all_news` (lines 187-193): walk the accumulated
articles carrying the `seen_urls` set (modelled as a list with membership). -/
def dedupGo (seen : List String) : List RawArticle → List RawArticle
  | [] => []
  | a :: rest =>
    if pyUrl a ≠ "" ∧ pyUrl a ∉ seen then a :: dedupGo (pyUrl a :: seen) rest
    else dedupGo seen rest

/-- Deduplication by URL with `seen_urls` initially empty (lines 187-193). -/
def dedupByUrl (l : List RawArticle) : List RawArticle := dedupGo [] l

/-- Modelled from the spec's words for claim C3 ("keeps exactly the first
occurrence of each URL and preserves the relative order"), restricted to
non-empty URLs: keep an article with a non-empty URL and delete every later
article carrying the same URL; drop articles with an empty/missing URL. -/
def specFirstSeen : List RawArticle → List RawArticle
  | [] => []
  | a :: rest =>
    if pyUrl a = "" then specFirstSeen rest
    else a :: specFirstSeen (rest.filter (fun b => decide (pyUrl b ≠ pyUrl a)))
termination_by l => l.length
decreasing_by
  · simp
  · simp only [List.length_cons]
    exact Nat.lt_succ_of_le (List.length_filter_le _ _)

/-- `NewsAutomator.TOPICS` (lines 163-172). -/
def TOPICS : List (String × List String) :=
  [("national", ["India government scheme", "Parliament law India",
      "Supreme Court India judgment", "NEP education India"]),
   ("international", ["global news India", "India foreign relations", "UN WHO India"]),
   ("economy", ["India economy", "RBI inflation India", "stock market India",
      "company news India", "budget India"]),
   ("technology", ["AI technology India", "ISRO mission", "cybersecurity India",
      "tech news India"]),
   ("science", ["scientific discovery", "space mission", "research breakthrough"]),
   ("health", ["health news India", "medical breakthrough", "disease outbreak"]),
   ("education", ["JEE NEET 2024", "UPSC exam", "board exam result India",
      "scholarship India"]),
   ("environment", ["climate change India", "cyclone flood India",
      "environment policy India"])]

/-- `NewsAutomator.fetch_all_news` (lines 179-195), parameterised by the
fetch oracle (`self.fetcher.search_news`; the `time.sleep(0.5)` pause has no
data effect). Per category: accumulate the per-query results in order,
deduplicate by URL, keep the first 4, and summarize. -/
def fetch_all_news (fetch : String → List RawArticle) : List (String × List ArticleSummary) :=
  TOPICS.map (fun ct => (ct.1, ((dedupByUrl (ct.2.flatMap fetch)).take 4).map create_summary))

/-- An article whose `url` field is missing (Python `art.get('url', '')`
yields `''`). -/
def emptyUrlArticle : RawArticle :=
  { title := some "A story", description := some "d", sourceName := some "S", url := none }

/-- A well-formed article used by witnesses. -/
def sampleArticle : RawArticle :=
  { title := some "T", description := some "desc", sourceName := some "Src",
    url := some "https://example.com/a" }

/-- A fetch oracle returning `sampleArticle` for every query. -/
def sampleFetch : String → List RawArticle := fun _ => [sampleArticle]

/-- A parsed response whose status is not `'ok'`. -/
def badStatusResponse : ApiResponse :=
  { status := some "error", articles := [sampleArticle] }

/-- A well-formed article with a distinct title, for the C7 witness. -/
def articleBeta : RawArticle :=
  { title := some "Beta", description := none, sourceName := none, url := some "https://b" }

/-- An article carrying the API's removal placeholder title. -/
def removedArticle : RawArticle :=
  { title := some "[Removed]", description := none, sourceName := none, url := some "https://r" }

/-- An article with no title field at all. -/
def untitledArticle : RawArticle :=
  { title := none, description := some "x", sourceName := none, url := some "https://u" }

/-- An article whose title is present but empty (falsy in Python). -/
def emptyTitleArticle : RawArticle :=
  { title := some "", description := none, sourceName := none, url := some "https://e" }

/-- A successful response mixing good and filtered-out articles. -/
def okResponse : ApiResponse :=
  { status := some "ok",
    articles := [sampleArticle, removedArticle, untitledArticle, emptyTitleArticle, articleBeta] }

/-- Right-fold string concatenation; Python's repeated `+=` of section and
item strings is expressed through it. -/
def joinAll : List String → String
  | [] => ""
  | s :: rest => s ++ joinAll rest

/-- The `cat_info` lookup table of `EmailSender.create_email` (lines 110-119):
category key, icon emoji, display name, and the unused description field, in
declaration order. -/
def cat_info : List (String × String × String × String) :=
  [("national", "📰", "NATIONAL (INDIA)", "Govt schemes, laws, policies"),
   ("international", "🌍", "INTERNATIONAL", "Global news, India relations"),
   ("economy", "💰", "ECONOMY & BUSINESS", "Money, markets, companies"),
   ("science", "📈", "SCIENCE & TECH", "AI, space, inventions"),
   ("education", "🎓", "EDUCATION & EXAMS", "Exams, results, admissions"),
   ("environment", "🌱", "ENVIRONMENT", "Climate, disasters"),
   ("technology", "📊", "TECHNOLOGY", "Tech news, AI"),
   ("health", "🏥", "HEALTH", "Medical, wellness")]

/-- Python `news_data.get(cat_key, [])` (lines 123 and 137): dictionary
lookup with an empty-list default, the digest being an association list. -/
def newsFor (nd : List (String × List ArticleSummary)) (k : String) : List ArticleSummary :=
  match nd.find? (fun p => decide (p.1 = k)) with
  | some p => p.2
  | none => []

/-- The fixed HTML document head and hero header of lines 89-108, with the
date interpolated; CSS braces and quotes appear verbatim in the source. -/
def htmlHeader (dateStr : String) : String :=
  "<!DOCTYPE html>\n<html><head><meta charset=\x27UTF-8\x27><meta name=\x27viewport\x27 content=\x27width=device-width, initial-scale=1.0\x27>\n<title>Daily News</title>\n<style>\nbody\x7bfont-family:-apple-system,BlinkMacSystemFont,\x27Segoe UI\x27,Roboto,sans-serif;background:#f5f7fa;padding:15px\x7d\n.container\x7bmax-width:680px;margin:0 auto\x7d\n.header\x7bbackground:linear-gradient(135deg,#1e3c72,#2a5298);color:white;padding:30px;border-radius:16px;text-align:center;margin-bottom:20px\x7d\n.category\x7bbackground:white;border-radius:12px;padding:20px;margin-bottom:18px;box-shadow:0 2px 8px rgba(0,0,0,0.06)\x7d\n.cat-header\x7bdisplay:flex;align-items:center;margin-bottom:15px;padding-bottom:12px;border-bottom:2px solid #f0f2f5\x7d\n.cat-icon\x7bfont-size:26px;margin-right:12px\x7d\n.cat-title\x7bfont-size:18px;font-weight:700;color:#1e3c72\x7d\n.news-item\x7bpadding:14px 0;border-bottom:1px solid #f0f0f0\x7d\n.news-title\x7bfont-size:15px;font-weight:600;margin-bottom:6px\x7d\n.news-title a\x7bcolor:#2a5298;text-decoration:none\x7d\n.news-source\x7bfont-size:12px;color:#888;margin-bottom:8px\x7d\n.news-summary\x7bfont-size:14px;color:#555;background:#f8f9fa;padding:12px;border-radius:8px;border-left:3px solid #2a5298\x7d\n.read-btn\x7bdisplay:inline-block;margin-top:8px;font-size:13px;color:#2a5298;text-decoration:none;font-weight:500\x7d\n.stats\x7bbackground:#e8f4fd;padding:12px;border-radius:8px;text-align:center;margin-bottom:20px;font-size:14px;color:#1e3c72\x7d\n</style></head><body><div class=\x27container\x27>\n<div class=\x27header\x27><h1>📰 Your Daily News Briefing</h1><p>" ++ dateStr ++ " • Easy to understand</p></div>"

/-- One `news-item` block of the HTML rendering (line 130). -/
def htmlItem (n : ArticleSummary) : String :=
  "<div class=\"news-item\"><div class=\"news-title\"><a href=\"" ++ n.url
    ++ "\" target=\"_blank\">" ++ n.title
    ++ "</a></div><div class=\"news-source\">📰 " ++ n.source
    ++ "</div><div class=\"news-summary\">" ++ n.summary
    ++ "</div><a href=\"" ++ n.url
    ++ "\" class=\"read-btn\" target=\"_blank\">→ Read full article</a></div>"

/-- One HTML category section: header (line 127), its items, and the closing
tag of line 131. -/
def htmlCatSection (emoji name : String) (arts : List ArticleSummary) : String :=
  "<div class=\"category\"><div class=\"cat-header\"><span class=\"cat-icon\">" ++ emoji
    ++ "</span><span class=\"cat-title\">" ++ name ++ "</span></div>"
    ++ joinAll (arts.map htmlItem) ++ "</div>"

/-- The HTML loop of lines 121-131: iterate `cat_info` in order, skip empty
categories (`continue`), accumulate the html string and the running `total`. -/
def htmlLoop (nd : List (String × List ArticleSummary)) :
    List (String × String × String × String) → String → Nat → String × Nat
  | [], html, total => (html, total)
  | c :: rest, html, total =>
    if newsFor nd c.1 = [] then htmlLoop nd rest html total
    else htmlLoop nd rest (html ++ htmlCatSection c.2.1 c.2.2.1 (newsFor nd c.1))
      (total + (newsFor nd c.1).length)

/-- The stats footer of line 133, closing the container, body and document. -/
def htmlStats (total : Nat) (cats : Nat) : String :=
  "<div class=\x27stats\x27>📊 " ++ toString total ++ " stories from "
    ++ toString cats ++ " categories</div></div></body></html>"

/-- Python `len([k for k,v in news_data.items() if v])` (line 133): the
number of digest entries holding at least one article. -/
def nonemptyCount (nd : List (String × List ArticleSummary)) : Nat :=
  (nd.filter (fun p => !p.2.isEmpty)).length

/-- The plain-text header of line 135. -/
def textHeader (dateStr : String) : String :=
  "📰 DAILY NEWS - " ++ dateStr ++ "\n" ++ String.mk (List.replicate 50 '=') ++ "\n\n"

/-- One numbered plain-text item (line 141); the URL display is cut to 40
characters with a hard slice. -/
def textItem (i : Nat) (n : ArticleSummary) : String :=
  toString i ++ ". " ++ n.title ++ "\n   📝 " ++ n.summary ++ "\n   🔗 "
    ++ n.url.take 40 ++ "...\n\n"

/-- One plain-text category section (lines 139-141), items numbered from 1
(`enumerate(articles, 1)`). -/
def textCatSection (emoji name : String) (arts : List ArticleSummary) : String :=
  emoji ++ " " ++ name ++ "\n" ++ String.mk (List.replicate 40 '─') ++ "\n"
    ++ joinAll (arts.enum.map (fun p => textItem (p.1 + 1) p.2))

/-- The plain-text loop of lines 136-141: same `cat_info` order, categories
with no articles are skipped. -/
def textLoop (nd : List (String × List ArticleSummary)) :
    List (String × String × String × String) → String → String
  | [], text => text
  | c :: rest, text =>
    if newsFor nd c.1 = [] then textLoop nd rest text
    else textLoop nd rest (text ++ textCatSection c.2.1 c.2.2.1 (newsFor nd c.1))

/-- The plain-text footer of line 142, reporting the total computed by the
HTML loop. -/
def textFooter (total : Nat) : String :=
  String.mk (List.replicate 50 '=') ++ "\n🔄 Auto-generated | " ++ toString total ++ " stories"

/-- `EmailSender.create_email` (lines 88-144): returns `(text, html)`. -/
def create_email (nd : List (String × List ArticleSummary)) (dateStr : String) :
    String × String :=
  let hp := htmlLoop nd cat_info (htmlHeader dateStr) 0
  let html := hp.1 ++ htmlStats hp.2 (nonemptyCount nd)
  let text := textLoop nd cat_info (textHeader dateStr) ++ textFooter hp.2
  (text, html)

/-- The total article count over the renderer's category table, as the HTML
loop accumulates it. -/
def catTotal (nd : List (String × List ArticleSummary)) : Nat :=
  (cat_info.map (fun c => (newsFor nd c.1).length)).sum

/-- `NewsAutomator.run` (lines 197-209), parameterised by the fetch oracle
and the email-send operation (`EmailSender.send`). The second component of
the result counts how many times the send operation was invoked; the first
is the returned success flag. With zero total articles the function returns
`False` at line 204 before any `EmailSender` is constructed. -/
def run (fetch : String → List RawArticle) (send : String → String → String → Bool)
    (dateStr : String) : Bool × Nat :=
  let news_data := fetch_all_news fetch
  let total := (news_data.map (fun p => p.2.length)).sum
  if total = 0 then (false, 0)
  else
    let te := create_email news_data dateStr
    (send ("📰 Daily News - " ++ dateStr ++ " (" ++ toString total ++ " updates)")
      te.1 te.2, 1)

theorem dropWhile_head_false {α : Type} (p : α → Bool) :
    ∀ (l : List α) (x : α) (xs : List α), l.dropWhile p = x :: xs → p x = false := by
  intro l
  induction l with
  | nil => intro x xs h; simp [List.dropWhile] at h
  | cons a t ih =>
    intro x xs h
    rw [List.dropWhile_cons] at h
    by_cases hp : p a
    · rw [if_pos hp] at h
      exact ih x xs h
    · rw [if_neg hp] at h
      cases h
      simpa using hp

theorem pyRsplitLast_space (t : List Char) (h : ' ' ∈ t) :
    ∃ x, pyRsplitLast t ++ ' ' :: x = t ∧ (pyRsplitLast t).length ≤ t.length := by
  unfold pyRsplitLast
  rw [if_pos h]
  have hr : ' ' ∈ t.reverse := List.mem_reverse.mpr h
  have hne : t.reverse.dropWhile (fun c => c != ' ') ≠ [] := by
    intro hnil
    rw [List.dropWhile_eq_nil_iff] at hnil
    have h2 := hnil ' ' hr
    simp at h2
  obtain ⟨d, ds, hds⟩ := List.exists_cons_of_ne_nil hne
  have hd : d = ' ' := by
    have h3 := dropWhile_head_false (fun c => c != ' ') t.reverse d ds hds
    simpa using h3
  have hdec : t.reverse.takeWhile (fun c => c != ' ')
      ++ t.reverse.dropWhile (fun c => c != ' ') = t.reverse :=
    List.takeWhile_append_dropWhile _ t.reverse
  refine ⟨(t.reverse.takeWhile (fun c => c != ' ')).reverse, ?_, ?_⟩
  · rw [hds]
    conv_rhs => rw [← List.reverse_reverse t, ← hdec, hds, hd]
    simp
  · have h4 : (t.reverse.dropWhile (fun c => c != ' ')).length ≤ t.reverse.length :=
      (List.dropWhile_sublist _).length_le
    simp only [List.length_reverse] at h4
    simp only [List.length_reverse, List.length_tail]
    omega

/-- C1: when the whitespace-collapsed form of the input exceeds `maxLen`
characters, `clean_text` produces an output of length at most
`maxLen + 3` (the length of the ellipsis marker), the output is some prefix
`p` followed by the marker, and — provided the truncated `maxLen`-character
slice contains a space — `p` ends at a word boundary of the collapsed input
(the collapsed input continues with a space right after `p`). -/
theorem clean_text_truncation (s : List Char) (maxLen : Nat)
    (h : maxLen < (pyCollapse s).length) :
    (clean_text s maxLen).length ≤ maxLen + ellipsisMarker.length ∧
    ∃ p, clean_text s maxLen = p ++ ellipsisMarker ∧
      (' ' ∈ truncatedSlice s maxLen → ∃ r, pyCollapse s = p ++ ' ' :: r) := by
  have hs : ¬ s = [] := by
    intro e
    subst e
    have h0 : (pyCollapse ([] : List Char)).length = 0 := by decide
    omega
  have hlt : (truncatedSlice s maxLen).length = maxLen := by
    unfold truncatedSlice
    rw [List.length_take]
    omega
  have hnot : ¬ (truncatedSlice s maxLen).length < maxLen := by omega
  have hct : clean_text s maxLen
      = pyRsplitLast (truncatedSlice s maxLen) ++ ellipsisMarker := by
    unfold clean_text
    rw [if_neg hs, if_neg hnot]
  rw [hct]
  by_cases hsp : ' ' ∈ truncatedSlice s maxLen
  · obtain ⟨x, hx, hlen⟩ := pyRsplitLast_space (truncatedSlice s maxLen) hsp
    constructor
    · rw [List.length_append]
      omega
    · refine ⟨pyRsplitLast (truncatedSlice s maxLen), rfl, fun _ => ?_⟩
      refine ⟨x ++ (pyCollapse s).drop maxLen, ?_⟩
      conv_lhs => rw [← List.take_append_drop maxLen (pyCollapse s)]
      have hx2 : (pyCollapse s).take maxLen
          = pyRsplitLast (truncatedSlice s maxLen) ++ ' ' :: x := by
        rw [hx]
        rfl
      rw [hx2]
      simp
  · have heq : pyRsplitLast (truncatedSlice s maxLen) = truncatedSlice s maxLen := by
      unfold pyRsplitLast
      rw [if_neg hsp]
    rw [heq]
    refine ⟨?_, truncatedSlice s maxLen, rfl, fun hc => absurd hc hsp⟩
    rw [List.length_append]
    omega

/-- Witness for C1 at the concrete input `"hello world news"` with
`maxLen = 8`: the collapsed form has 16 characters, the slice `"hello wo"`
drops back to the boundary after `"hello"`, and the marker is appended. -/
theorem clean_text_truncation_witness :
    (clean_text "hello world news".data 8).length ≤ 8 + ellipsisMarker.length ∧
    clean_text "hello world news".data 8 = "hello".data ++ ellipsisMarker ∧
    pyCollapse "hello world news".data = "hello".data ++ ' ' :: "world news".data :=
  ⟨(clean_text_truncation "hello world news".data 8 (by decide)).1,
   by decide, by decide⟩

/-- C2 (amended to non-empty input): for every non-empty text whose collapsed
form is shorter than `maxLen`, `clean_text` returns exactly the collapsed
input, with no marker appended and no word dropped. -/
theorem clean_text_short (s : List Char) (maxLen : Nat)
    (hs : s ≠ []) (h : (pyCollapse s).length < maxLen) :
    clean_text s maxLen = pyCollapse s := by
  unfold clean_text
  rw [if_neg hs]
  have htake : truncatedSlice s maxLen = pyCollapse s := by
    unfold truncatedSlice
    exact List.take_of_length_le (Nat.le_of_lt h)
  rw [htake, if_pos h]

/-- Witness for C2's amended theorem at `"Daily   news  bot"` with
`maxLen = 150`: whitespace runs collapse and nothing else changes. -/
theorem clean_text_short_witness :
    clean_text "Daily   news  bot".data 150 = pyCollapse "Daily   news  bot".data ∧
    clean_text "Daily   news  bot".data 150 = "Daily news bot".data :=
  ⟨clean_text_short "Daily   news  bot".data 150 (by decide) (by decide), by decide⟩

/-- Counterexample to C2 as stated: the empty input has an empty collapsed
form (shorter than `max_len = 150`), yet `clean_text` returns the fixed
default `"No details available"` rather than the collapsed input. -/
theorem clean_text_empty_cex :
    (pyCollapse ([] : List Char)).length < 150 ∧
    clean_text [] 150 ≠ pyCollapse [] ∧
    clean_text [] 150 = "No details available".data := by
  refine ⟨by decide, ?_, by decide⟩
  decide

theorem dedupGo_cons (seen : List String) (a : RawArticle) (rest : List RawArticle) :
    dedupGo seen (a :: rest)
      = if pyUrl a ≠ "" ∧ pyUrl a ∉ seen then a :: dedupGo (pyUrl a :: seen) rest
        else dedupGo seen rest := rfl

theorem dedupGo_sublist (l : List RawArticle) : ∀ seen, (dedupGo seen l).Sublist l := by
  induction l with
  | nil => intro seen; simp [dedupGo]
  | cons a rest ih =>
    intro seen
    rw [dedupGo_cons]
    by_cases hc : pyUrl a ≠ "" ∧ pyUrl a ∉ seen
    · rw [if_pos hc]
      exact List.Sublist.cons₂ a (ih _)
    · rw [if_neg hc]
      exact List.Sublist.cons a (ih seen)

theorem dedupGo_eq_spec (l : List RawArticle) : ∀ seen,
    dedupGo seen l = specFirstSeen (l.filter (fun x => decide (pyUrl x ∉ seen))) := by
  induction l with
  | nil => intro seen; simp [dedupGo, specFirstSeen]
  | cons a rest ih =>
    intro seen
    rw [dedupGo_cons, List.filter_cons]
    by_cases hmem : pyUrl a ∈ seen
    · have hcond : ¬ (pyUrl a ≠ "" ∧ pyUrl a ∉ seen) := fun hand => hand.2 hmem
      rw [if_neg hcond]
      have hkeepf : decide (pyUrl a ∉ seen) = false := by simp [hmem]
      rw [hkeepf, if_neg Bool.false_ne_true]
      exact ih seen
    · have hkeep : decide (pyUrl a ∉ seen) = true := by simp [hmem]
      rw [hkeep, if_pos rfl]
      by_cases hu : pyUrl a = ""
      · have hcond : ¬ (pyUrl a ≠ "" ∧ pyUrl a ∉ seen) := fun hand => hand.1 hu
        rw [if_neg hcond]
        rw [ih seen]
        have hspec : specFirstSeen (a :: rest.filter (fun x => decide (pyUrl x ∉ seen)))
            = specFirstSeen (rest.filter (fun x => decide (pyUrl x ∉ seen))) := by
          simp only [specFirstSeen]
          rw [if_pos hu]
        rw [hspec]
      · rw [if_pos ⟨hu, hmem⟩]
        have hspec : specFirstSeen (a :: rest.filter (fun x => decide (pyUrl x ∉ seen)))
            = a :: specFirstSeen ((rest.filter (fun x => decide (pyUrl x ∉ seen))).filter
                (fun b => decide (pyUrl b ≠ pyUrl a))) := by
          simp only [specFirstSeen]
          rw [if_neg hu]
        rw [hspec, ih (pyUrl a :: seen), List.filter_filter]
        have hfc : rest.filter (fun x => decide (pyUrl x ∉ pyUrl a :: seen))
            = rest.filter (fun x => decide (pyUrl x ≠ pyUrl a) && decide (pyUrl x ∉ seen)) := by
          apply List.filter_congr
          intro x _
          by_cases h1 : pyUrl x = pyUrl a
          · simp [h1, List.mem_cons]
          · by_cases h2 : pyUrl x ∈ seen
            · simp [h1, h2, List.mem_cons]
            · simp [h1, h2, List.mem_cons]
        rw [hfc]

/-- C3 (amended to non-empty URLs): the dedup loop of `fetch_all_news` keeps
exactly the first occurrence of each non-empty URL — every later article
with an already-seen URL is deleted, and an article with a missing or empty
`url` field is dropped even at its first occurrence — and the result is a
sublist of the input, so the relative fetch order of the kept first
occurrences is preserved. -/
theorem dedup_first_seen_wins (l : List RawArticle) :
    dedupByUrl l = specFirstSeen l ∧ (dedupByUrl l).Sublist l := by
  constructor
  · have h := dedupGo_eq_spec l []
    simpa [dedupByUrl] using h
  · exact dedupGo_sublist l []

/-- Counterexample to C3 as stated: on the one-element list holding an
article with a missing URL, the dedup loop returns `[]`, not the first
occurrence of that article. -/
theorem dedup_drops_empty_url_cex :
    dedupByUrl [emptyUrlArticle] = [] ∧ dedupByUrl [emptyUrlArticle] ≠ [emptyUrlArticle] := by
  constructor
  · rfl
  · decide

theorem dedupGo_mem_url_ne (l : List RawArticle) :
    ∀ seen a, a ∈ dedupGo seen l → pyUrl a ≠ "" := by
  induction l with
  | nil => intro seen a h; simp [dedupGo] at h
  | cons b rest ih =>
    intro seen a h
    rw [dedupGo_cons] at h
    by_cases hc : pyUrl b ≠ "" ∧ pyUrl b ∉ seen
    · rw [if_pos hc] at h
      rcases List.mem_cons.mp h with h1 | h1
      · rw [h1]
        exact hc.1
      · exact ih _ a h1
    · rw [if_neg hc] at h
      exact ih seen a h

/-- C4: in a built digest, every category's summary list holds at most 4
entries, whatever the fetch oracle returned (`unique_articles[:4]`,
line 194). -/
theorem fetch_all_news_quota (fetch : String → List RawArticle) (cat : String)
    (l : List ArticleSummary) (h : (cat, l) ∈ fetch_all_news fetch) :
    l.length ≤ 4 := by
  unfold fetch_all_news at h
  obtain ⟨ct, hct, heq⟩ := List.mem_map.mp h
  cases heq
  simp only [List.length_map, List.length_take]
  exact Nat.min_le_left _ _

/-- Witness for C4: with `sampleFetch`, the `national` category of the built
digest holds one summary, and the quota bound applies to it. -/
theorem fetch_all_news_quota_witness :
    ([create_summary sampleArticle] : List ArticleSummary).length ≤ 4 :=
  fetch_all_news_quota sampleFetch "national" [create_summary sampleArticle] (by decide)

/-- C10: every summary stored in a built digest has a non-empty URL — the
dedup loop admits only articles whose `url` field is present and non-empty,
and `create_summary` copies that field verbatim. -/
theorem fetch_all_news_urls_nonempty (fetch : String → List RawArticle) (cat : String)
    (l : List ArticleSummary) (h : (cat, l) ∈ fetch_all_news fetch) :
    ∀ s ∈ l, s.url ≠ "" := by
  unfold fetch_all_news at h
  obtain ⟨ct, hct, heq⟩ := List.mem_map.mp h
  cases heq
  intro s hs
  obtain ⟨a, ha, hsa⟩ := List.mem_map.mp hs
  have ha2 : a ∈ dedupByUrl (ct.2.flatMap fetch) := List.mem_of_mem_take ha
  have h3 : pyUrl a ≠ "" := dedupGo_mem_url_ne _ [] a ha2
  rw [← hsa]
  simpa [create_summary, pyUrl] using h3

/-- Witness for C10: the summary built from `sampleArticle` sits in the
digest and indeed carries its non-empty URL. -/
theorem fetch_all_news_urls_nonempty_witness :
    (create_summary sampleArticle).url ≠ "" :=
  fetch_all_news_urls_nonempty sampleFetch "national" [create_summary sampleArticle]
    (by decide) (create_summary sampleArticle) (by decide)

/-- C6: `search_news` never propagates a failure. It is a total function of
the transport/parse outcome; any raised exception (`Except.error`) yields the
empty list (lines 60-62), and so does a parsed response whose `status` field
is anything other than `'ok'` (line 59). -/
theorem search_news_swallows (e : String) (d : ApiResponse) (hd : d.status ≠ some "ok") :
    search_news (Except.error e) = [] ∧ search_news (Except.ok d) = [] := by
  constructor
  · rfl
  · show (if d.status = some "ok" then (d.articles.filter goodTitle).take 6 else []) = []
    rw [if_neg hd]

/-- Witness for C6 at a concrete exception and a concrete non-`'ok'`
response. -/
theorem search_news_swallows_witness :
    search_news (Except.error "ReadTimeout") = [] ∧
    search_news (Except.ok badStatusResponse) = [] :=
  search_news_swallows "ReadTimeout" badStatusResponse (by decide)

/-- C7: on a successful (`status == 'ok'`) response, `search_news` returns
exactly the first 6 articles passing the title filter, hence: at most 6
articles, in the API's own delivery order (the result is a sublist of the
response array — no resorting), and every returned article has a present,
non-empty, non-`'[Removed]'` title. -/
theorem search_news_ok_filter (d : ApiResponse) (h : d.status = some "ok") :
    search_news (Except.ok d) = (d.articles.filter goodTitle).take 6 ∧
    (search_news (Except.ok d)).length ≤ 6 ∧
    (search_news (Except.ok d)).Sublist d.articles ∧
    ∀ a ∈ search_news (Except.ok d),
      ∃ t, a.title = some t ∧ t ≠ "" ∧ t ≠ "[Removed]" := by
  have he : search_news (Except.ok d) = (d.articles.filter goodTitle).take 6 := by
    show (if d.status = some "ok" then (d.articles.filter goodTitle).take 6 else [])
      = (d.articles.filter goodTitle).take 6
    rw [if_pos h]
  refine ⟨he, ?_, ?_, ?_⟩
  · rw [he, List.length_take]
    exact Nat.min_le_left _ _
  · rw [he]
    exact (List.take_sublist _ _).trans (List.filter_sublist _)
  · intro a ha
    rw [he] at ha
    have h2 := List.mem_of_mem_take ha
    have h3 := (List.mem_filter.mp h2).2
    unfold goodTitle at h3
    cases hta : a.title with
    | none =>
      rw [hta] at h3
      exact absurd h3 (by simp)
    | some t =>
      rw [hta] at h3
      have h4 : t ≠ "" ∧ t ≠ "[Removed]" := of_decide_eq_true h3
      exact ⟨t, rfl, h4.1, h4.2⟩

/-- Witness for C7: only the two well-titled articles survive, in delivery
order. -/
theorem search_news_ok_filter_witness :
    search_news (Except.ok okResponse) = (okResponse.articles.filter goodTitle).take 6 ∧
    search_news (Except.ok okResponse) = [sampleArticle, articleBeta] :=
  ⟨(search_news_ok_filter okResponse rfl).1, by decide⟩

theorem joinAll_cons (s : String) (rest : List String) :
    joinAll (s :: rest) = s ++ joinAll rest := rfl

theorem htmlLoop_cons (nd : List (String × List ArticleSummary))
    (c : String × String × String × String) (rest : List (String × String × String × String))
    (html : String) (total : Nat) :
    htmlLoop nd (c :: rest) html total
      = if newsFor nd c.1 = [] then htmlLoop nd rest html total
        else htmlLoop nd rest (html ++ htmlCatSection c.2.1 c.2.2.1 (newsFor nd c.1))
          (total + (newsFor nd c.1).length) := rfl

theorem textLoop_cons (nd : List (String × List ArticleSummary))
    (c : String × String × String × String) (rest : List (String × String × String × String))
    (text : String) :
    textLoop nd (c :: rest) text
      = if newsFor nd c.1 = [] then textLoop nd rest text
        else textLoop nd rest (text ++ textCatSection c.2.1 c.2.2.1 (newsFor nd c.1)) := rfl

theorem htmlLoop_eq (nd : List (String × List ArticleSummary)) :
    ∀ (cats : List (String × String × String × String)) (acc : String) (total : Nat),
    htmlLoop nd cats acc total
      = (acc ++ joinAll ((cats.filter (fun c => decide (newsFor nd c.1 ≠ []))).map
            (fun c => htmlCatSection c.2.1 c.2.2.1 (newsFor nd c.1))),
         total + ((cats.map (fun c => (newsFor nd c.1).length)).sum)) := by
  intro cats
  induction cats with
  | nil => intro acc total; simp [htmlLoop, joinAll]
  | cons c rest ih =>
    intro acc total
    by_cases he : newsFor nd c.1 = []
    · have hdf : (decide (newsFor nd c.1 ≠ [])) = false := by simp [he]
      rw [htmlLoop_cons, if_pos he, ih, List.filter_cons, hdf]
      simp [he]
    · have hdt : (decide (newsFor nd c.1 ≠ [])) = true := by simp [he]
      rw [htmlLoop_cons, if_neg he, ih, List.filter_cons, hdt, if_pos rfl]
      simp [joinAll, String.append_assoc, Nat.add_assoc]

theorem textLoop_eq (nd : List (String × List ArticleSummary)) :
    ∀ (cats : List (String × String × String × String)) (acc : String),
    textLoop nd cats acc
      = acc ++ joinAll ((cats.filter (fun c => decide (newsFor nd c.1 ≠ []))).map
          (fun c => textCatSection c.2.1 c.2.2.1 (newsFor nd c.1))) := by
  intro cats
  induction cats with
  | nil => intro acc; simp [textLoop, joinAll]
  | cons c rest ih =>
    intro acc
    by_cases he : newsFor nd c.1 = []
    · have hdf : (decide (newsFor nd c.1 ≠ [])) = false := by simp [he]
      rw [textLoop_cons, if_pos he, ih, List.filter_cons, hdf]
      simp
    · have hdt : (decide (newsFor nd c.1 ≠ [])) = true := by simp [he]
      rw [textLoop_cons, if_neg he, ih, List.filter_cons, hdt, if_pos rfl]
      simp [joinAll, String.append_assoc]

/-- C8: both renderings produced by `create_email` enumerate categories in
the same fixed `cat_info` declaration order — each output is its fixed
header, followed by the concatenation of one section per category taken from
the same order-preserving filter of `cat_info`, followed by its footer — and
a category whose article list is empty contributes no section to either
output (it is removed by that filter). -/
theorem create_email_sections (nd : List (String × List ArticleSummary)) (dateStr : String) :
    (create_email nd dateStr).2
      = htmlHeader dateStr
        ++ joinAll ((cat_info.filter (fun c => decide (newsFor nd c.1 ≠ []))).map
            (fun c => htmlCatSection c.2.1 c.2.2.1 (newsFor nd c.1)))
        ++ htmlStats (catTotal nd) (nonemptyCount nd) ∧
    (create_email nd dateStr).1
      = textHeader dateStr
        ++ joinAll ((cat_info.filter (fun c => decide (newsFor nd c.1 ≠ []))).map
            (fun c => textCatSection c.2.1 c.2.2.1 (newsFor nd c.1)))
        ++ textFooter (catTotal nd) := by
  constructor
  · show (htmlLoop nd cat_info (htmlHeader dateStr) 0).1
        ++ htmlStats (htmlLoop nd cat_info (htmlHeader dateStr) 0).2 (nonemptyCount nd) = _
    rw [htmlLoop_eq]
    simp [catTotal]
  · show textLoop nd cat_info (textHeader dateStr)
        ++ textFooter (htmlLoop nd cat_info (htmlHeader dateStr) 0).2 = _
    rw [textLoop_eq, htmlLoop_eq]
    simp [catTotal]

/-- C5: when the fetched digest holds zero articles in total across all
categories, `run` reports failure and the send operation is invoked zero
times, for every send operation and date. -/
theorem run_zero_articles (fetch : String → List RawArticle)
    (send : String → String → String → Bool) (dateStr : String)
    (h : ((fetch_all_news fetch).map (fun p => p.2.length)).sum = 0) :
    run fetch send dateStr = (false, 0) := by
  unfold run
  rw [if_pos h]

/-- Witness for C5: a fetch oracle returning nothing for every query yields
an all-empty digest, no email, and an unsuccessful run. -/
theorem run_zero_articles_witness :
    run (fun _ => []) (fun _ _ _ => true) "May 01, 2025" = (false, 0) :=
  run_zero_articles (fun _ => []) (fun _ _ _ => true) "May 01, 2025" (by decide)

/-- Counterexample to C9 as stated: the two key sets are identical — every
key of the digest builder's `TOPICS` table appears in the renderer's
`cat_info` display table, and conversely. No category of either table is
missing from the other. -/
theorem topics_catinfo_keys_agree :
    (∀ k ∈ TOPICS.map Prod.fst, k ∈ cat_info.map Prod.fst) ∧
    (∀ k ∈ cat_info.map Prod.fst, k ∈ TOPICS.map Prod.fst) := by
  decide

/-- C9 (amended): the builder's `TOPICS` key set and the renderer's
`cat_info` key set are equal as sets — one is a permutation of the other, so
no category of articles is silently dropped by a key mismatch — although the
two tables enumerate the eight categories in different orders. -/
theorem topics_catinfo_keys_perm :
    (TOPICS.map Prod.fst).Perm (cat_info.map Prod.fst) ∧
    TOPICS.map Prod.fst ≠ cat_info.map Prod.fst := by
  decide
